import Mathlib

/-!
Verification development for the pybliometrics retrieval/caching/rate-limiting
core.  Shallow embedding of `pybliometrics/utils/startup.py`,
`pybliometrics/utils/create_config.py`, `pybliometrics/utils/checks.py`,
`pybliometrics/utils/parse_content.py`, the exception taxonomy of
`pybliometrics/exception.py`, and spec-level models of the components whose
sources (`superclasses/base.py`, `superclasses/search.py`,
`utils/get_content.py`, `utils/constants.py`) are not part of the checked tree.
-/

/-! ## JSON model and `chained_get` (`utils/parse_content.py`) -/

/-- A JSON-like value as handled by the parsing helpers: the payloads are
nested dicts, lists, strings, numbers, booleans and null. -/
inductive Json where
  | null : Json
  | bool (v : Bool) : Json
  | num (v : Int) : Json
  | str (v : String) : Json
  | arr (items : List Json) : Json
  | obj (fields : List (String × Json)) : Json

/-- Association lookup in a JSON object, mirroring Python dict key lookup. -/
def jsonGet : List (String × Json) → String → Option Json
  | [], _ => none
  | (k, v) :: rest, key => if k = key then some v else jsonGet rest key

/-- Whether a JSON value is a dict (a Python object with a `get` method). -/
def Json.isObj : Json → Bool
  | .obj _ => true
  | _ => false

/-- Python `c.get(k, default)`: on a dict it returns the value bound to `k`
or `default`; on any other value the attribute access raises
(`AttributeError`), modelled as the error case. -/
def pyGet (c : Json) (k : String) (default : Json) : Except Unit Json :=
  match c with
  | .obj fields => .ok ((jsonGet fields k).getD default)
  | _ => .error ()

/-- The `reduce(lambda c, k: c.get(k, default), path, container)` left fold of
`chained_get`, propagating the exception of any step. -/
def reduceGet (default : Json) : Json → List String → Except Unit Json
  | c, [] => .ok c
  | c, k :: rest =>
    match pyGet c k default with
    | .ok c2 => reduceGet default c2 rest
    | .error e => .error e

/-- `chained_get(container, path, default)` from `utils/parse_content.py`:
the reduce above wrapped in `try/except (AttributeError, TypeError)`
returning `default` on exception. -/
def chained_get (container : Json) (path : List String) (default : Json) : Json :=
  match reduceGet default container path with
  | .ok v => v
  | .error _ => default

/-- Spec-side nested lookup: resolves the path step by step strictly through
dicts, `none` as soon as a key is absent or a non-dict is traversed.  Used to
compare `chained_get` against the natural reading of "safe nested lookup". -/
def resolvePath : Json → List String → Option Json
  | c, [] => some c
  | .obj fields, k :: rest =>
    match jsonGet fields k with
    | some v => resolvePath v rest
    | none => none
  | _, _ :: _ => none

/-! ## Error taxonomy (`pybliometrics/exception.py` and Python built-ins) -/

/-- Python-level exceptions raised by the startup/validation code:
`ValueError` (tagged with a short description of the offending parameter),
`configparser.NoSectionError`, `FileNotFoundError`, `RuntimeError`. -/
inductive PyError where
  | valueError (what : String) : PyError
  | noSectionError (sec : String) : PyError
  | fileNotFoundError : PyError
  | runtimeError : PyError
deriving DecidableEq, Repr

/-- The exception classes of `pybliometrics/exception.py` that the fetch and
search layers raise, one constructor per class. -/
inductive ScopusException where
  | scopusQueryError : ScopusException
  | scopus400 : ScopusException
  | scopus401 : ScopusException
  | scopus403 : ScopusException
  | scopus404 : ScopusException
  | scopus407 : ScopusException
  | scopus413 : ScopusException
  | scopus414 : ScopusException
  | scopus429 : ScopusException
  | scopusServerError : ScopusException
deriving DecidableEq, Repr

/-! ## Configuration objects (`configparser` as used by the code) -/

/-- A parsed configuration: named sections, each a list of (option, value)
pairs, preserving case as `preserve_case_optionxform` does. -/
structure Config where
  sections : List (String × List (String × String))
deriving DecidableEq, Repr

/-- Section lookup, mirroring `config.has_section`. -/
def hasSection (c : Config) (sec : String) : Bool :=
  c.sections.any (fun p => p.1 = sec)

/-- Option lookup inside a section, mirroring `config.get(sec, opt)` /
`config.has_option`. -/
def configGet (c : Config) (sec opt : String) : Option String :=
  match c.sections.find? (fun p => p.1 = sec) with
  | some (_, opts) =>
    match opts.find? (fun p => p.1 = opt) with
    | some (_, v) => some v
    | none => none
  | none => none

/-- `config.set(sec, opt, val)`: overwrite the option inside the section if
present, else append it; a missing section is appended. -/
def configSet (c : Config) (sec opt val : String) : Config :=
  if hasSection c sec then
    ⟨c.sections.map (fun p =>
      if p.1 = sec then
        (p.1,
          if p.2.any (fun q => q.1 = opt) then
            p.2.map (fun q => if q.1 = opt then (q.1, val) else q)
          else
            p.2 ++ [(opt, val)])
      else p)⟩
  else
    ⟨c.sections ++ [(sec, [(opt, val)])]⟩

/-- `", ".join(xs)` used when writing keys and tokens to the config. -/
def joinComma (xs : List String) : String :=
  String.intercalate ", " xs

/-- `[k.strip() for k in raw.split(",") if k.strip()]` used when reading keys
and tokens back out of the config. -/
def splitList (raw : String) : List String :=
  ((raw.splitOn ",").map String.trim).filter (fun x => x ≠ "")

/-! ## `create_config` (`utils/create_config.py`)

The interactive prompt branch (reading keys from stdin when none are passed)
is the out-of-scope config wizard; the strings entered there are modelled as
the already-joined `keysStr`/`insttokenStr` arguments, which the
non-interactive branch sets to `", ".join(keys)` and `", ".join(insttoken)`. -/

/-- The configuration object built by `create_config`: a `Directories`
section with the default paths, an `Authentication` section with `APIKey`
(the joined keys, or the empty string) and `InstToken` (only when tokens were
given), and a `Requests` section with default `Timeout = 20` and
`Retries = 5`. -/
def createConfig (defaultPaths : List (String × String))
    (keysStr insttokenStr : String) : Config :=
  ⟨[("Directories", defaultPaths),
    ("Authentication",
      [("APIKey", keysStr)] ++
      (if insttokenStr ≠ "" then [("InstToken", insttokenStr)] else [])),
    ("Requests", [("Timeout", "20"), ("Retries", "5")])]⟩

/-! ## Startup state and `init` (`utils/startup.py`) -/

/-- The module-level mutable state of `utils/startup.py`: `CONFIG`,
`CUSTOM_KEYS`, `CUSTOM_INSTTOKENS`, and `_throttling_params` (per-API name:
the window capacity from `RATELIMITS` together with the deque contents). -/
structure StartupState where
  config : Option Config
  customKeys : Option (List String)
  customInsttokens : Option (List String)
  throttling : List (String × Nat × List Nat)
deriving DecidableEq, Repr

/-- `_throttling_params`: one fresh bounded deque (`deque(maxlen=v)`) per
entry of `RATELIMITS`, created once at module import. -/
def throttlingParams (ratelimits : List (String × Nat)) :
    List (String × Nat × List Nat) :=
  ratelimits.map (fun p => (p.1, p.2, ([] : List Nat)))

/-- `get_keys()`: the custom keys when truthy, else the comma-split
`Authentication/APIKey` config entry (missing option gives `[]`), else
`FileNotFoundError` when no config is loaded. -/
def get_keys (s : StartupState) : Except PyError (List String) :=
  match s.customKeys with
  | some (k :: ks) => .ok (k :: ks)
  | _ =>
    match s.config with
    | some c =>
      .ok (match configGet c "Authentication" "APIKey" with
           | some raw => splitList raw
           | none => [])
    | none => .error .fileNotFoundError

/-- `get_insttokens()`: the custom tokens when truthy; else, when a config is
loaded and no custom keys are set, the comma-split `Authentication/InstToken`
entry; `FileNotFoundError` when no config is loaded; `[]` when custom keys
are set (config tokens are then not needed). -/
def get_insttokens (s : StartupState) : Except PyError (List String) :=
  match s.customInsttokens with
  | some (t :: ts) => .ok (t :: ts)
  | _ =>
    match s.config, s.customKeys with
    | some c, none =>
      .ok (match configGet c "Authentication" "InstToken" with
           | some raw => splitList raw
           | none => [])
    | some c, some [] =>
      .ok (match configGet c "Authentication" "InstToken" with
           | some raw => splitList raw
           | none => [])
    | some _, some (_ :: _) => .ok []
    | none, _ => .error .fileNotFoundError

/-- `get_config()`: raises `FileNotFoundError` when `CONFIG` is still `None`,
else returns the loaded parser. -/
def get_config (s : StartupState) : Except PyError Config :=
  match s.config with
  | none => .error .fileNotFoundError
  | some c => .ok c

/-- `check_sections`: `NoSectionError` for the first of `Directories`,
`Authentication`, `Requests` that is missing. -/
def checkSections (c : Config) : Option PyError :=
  if ¬ hasSection c "Directories" then some (.noSectionError "Directories")
  else if ¬ hasSection c "Authentication" then some (.noSectionError "Authentication")
  else if ¬ hasSection c "Requests" then some (.noSectionError "Requests")
  else none

/-- `check_default_paths`: every default path missing from the `Directories`
section is written into the config. -/
def checkDefaultPaths (c : Config) (defaultPaths : List (String × String)) : Config :=
  defaultPaths.foldl
    (fun acc p =>
      if configGet acc "Directories" p.1 = none then
        configSet acc "Directories" p.1 p.2
      else acc)
    c

/-- The body of `check_keys_tokens` on the two lists returned by
`get_keys()` and `get_insttokens()`: `ValueError` when both are empty, when
tokens come without keys, or when there are more tokens than keys. -/
def checkKeysTokens (keys toks : List String) : Option PyError :=
  if keys = [] ∧ toks = [] then
    some (.valueError "no API keys or InstTokens")
  else if toks ≠ [] ∧ keys = [] then
    some (.valueError "InstTokens without corresponding API keys")
  else if keys ≠ [] ∧ toks ≠ [] ∧ keys.length < toks.length then
    some (.valueError "more InstTokens than API keys")
  else none

/-- `check_keys_tokens()` as called by `init`: reads the key and token lists
out of the current state and validates them. -/
def checkKeysTokensState (s : StartupState) : Option PyError :=
  match get_keys s, get_insttokens s with
  | .ok kl, .ok tl => checkKeysTokens kl tl
  | .error e, _ => some e
  | _, .error e => some e

/-- `init(config_path, keys, inst_tokens)`.  `pathConfig` is the parsed
content of the config file at the resolved path (`none` when the file does
not exist, in which case `create_config` builds and returns a fresh config).
`CONFIG` is set first; then the sections are checked (raising leaves the
remaining globals untouched); then missing default paths are written; then
`CUSTOM_KEYS` and `CUSTOM_INSTTOKENS` are overwritten with the arguments and
`check_keys_tokens` runs.

The filesystem side effects (writing the config file, creating cache
folders) are dropped; `_throttling_params` is — as in the source — not
mentioned by `init` at all. -/
def initPy (s : StartupState) (pathConfig : Option Config)
    (defaultPaths : List (String × String))
    (keys insttokens : Option (List String)) :
    StartupState × Option PyError :=
  let cfg :=
    match pathConfig with
    | some c => c
    | none =>
      createConfig defaultPaths (joinComma (keys.getD []))
        (joinComma (insttokens.getD []))
  let s1 := { s with config := some cfg }
  match checkSections cfg with
  | some e => (s1, some e)
  | none =>
    let s2 := { s1 with config := some (checkDefaultPaths cfg defaultPaths) }
    let s3 := { s2 with customKeys := keys, customInsttokens := insttokens }
    (s3, checkKeysTokensState s3)

/-! ## Rate-limit windows (`_throttling_params` in `utils/startup.py`)

The windows are Python `deque(maxlen=N)` instances; appending to a full
bounded deque discards the element at the opposite end. -/

/-- `deque(maxlen=n).append(x)` on a deque currently holding `q` (left = oldest):
the new element goes to the right, and everything beyond the last `n`
elements is discarded from the left. -/
def dequeAppend (n : Nat) (q : List Nat) (x : Nat) : List Nat :=
  let q2 := q ++ [x]
  q2.drop (q2.length - n)

/-- The last `n` elements of a list (the `n` most recent appends). -/
def lastN (n : Nat) (l : List Nat) : List Nat :=
  l.drop (l.length - n)

/-! ## Parameter validation (`utils/checks.py`) and constructor checks -/

/-- `check_parameter_value(parameter, allowed, name)`: `ValueError` naming
the parameter when the value is not among the allowed ones. -/
def check_parameter_value (parameter : String) (allowed : List String)
    (name : String) : Option PyError :=
  if parameter ∈ allowed then none else some (.valueError name)

/-- Permitted views for `AbstractRetrieval`.  Modelled from the spec:
`utils/constants.py` (the `VIEWS` table) is not in the checked tree; the
values are those documented in `scopus/abstract_retrieval.py` — META,
META_ABS, REF, FULL, ENTITLED. -/
def viewsAbstractRetrieval : List String :=
  ["META", "META_ABS", "REF", "FULL", "ENTITLED"]

/-- Permitted views for `ArticleEntitlement`.  Modelled from the spec:
`utils/constants.py` is not in the checked tree; the values are those
documented in `sciencedirect/article_entitlement.py` — FULL, STANDARD. -/
def viewsArticleEntitlement : List String :=
  ["FULL", "STANDARD"]

/-- `detect_id_type`.  Modelled from the spec: `utils/get_content.py` is not
in the checked tree; the spec gives the patterns — DOI contains a slash, EID
starts with the known prefix, PII is a fixed-length alphanumeric code, else a
plain numeric Scopus ID. -/
def detectIdType (identifier : String) : String :=
  if identifier.contains (Char.ofNat 47) then "doi"
  else if identifier.startsWith "2-s2.0-" then "eid"
  else if identifier.length = 17 ∧ identifier.all Char.isAlphanum then "pii"
  else "scopus_id"

/-- The allowed explicit `id_type` values of `AbstractRetrieval.__init__`. -/
def idTypesAbstractRetrieval : List String :=
  ["eid", "pii", "scopus_id", "pubmed_id", "doi"]

/-- The allowed explicit `id_type` values of `ArticleEntitlement.__init__`. -/
def idTypesArticleEntitlement : List String :=
  ["eid", "pii", "scopus_id", "pubmed_id", "doi", "pui"]

/-- The check phase of `AbstractRetrieval.__init__` followed by the network
stage: the view is validated first, then the id type is detected or
validated, and only then does `Retrieval.__init__` run (its cache/fetch
activity abstracted as issuing `netCalls` requests).  Returns the number of
network requests issued together with the error, if any. -/
def abstractRetrievalInit (view : String) (idType : Option String)
    (identifier : Option String) (netCalls : Nat) : Nat × Option PyError :=
  match check_parameter_value view viewsAbstractRetrieval "view" with
  | some e => (0, some e)
  | none =>
    match idType, identifier with
    | none, some _ => (netCalls, none)
    | none, none => (netCalls, none)
    | some it, _ =>
      match check_parameter_value it idTypesAbstractRetrieval "id_type" with
      | some e => (0, some e)
      | none => (netCalls, none)

/-- The check phase of `ArticleEntitlement.__init__` followed by the network
stage, as for `abstractRetrievalInit`. -/
def articleEntitlementInit (view : String) (idType : Option String)
    (netCalls : Nat) : Nat × Option PyError :=
  match check_parameter_value view viewsArticleEntitlement "view" with
  | some e => (0, some e)
  | none =>
    match idType with
    | none => (netCalls, none)
    | some it =>
      match check_parameter_value it idTypesArticleEntitlement "id_type" with
      | some e => (0, some e)
      | none => (netCalls, none)

/-! ## Credential rotation (spec §4.4, `utils/get_content.py` not in tree) -/

/-- Outcome of a fetch: a successful document obtained with some credential,
or a typed failure. -/
inductive FetchOutcome where
  | success (key : String) : FetchOutcome
  | failure (e : ScopusException) : FetchOutcome
deriving DecidableEq, Repr

/-- The exception class for an immediately-failing client error status. -/
def clientException (code : Nat) : ScopusException :=
  if code = 400 then .scopus400
  else if code = 404 then .scopus404
  else if code = 407 then .scopus407
  else if code = 413 then .scopus413
  else .scopus414

/-- Modelled from the spec: the credential-rotation loop of the HTTP fetcher
(`utils/get_content.py` is not in the checked tree).  `resp key` is the HTTP
status the provider returns for the request made with `key`.  2xx returns
the document; 400/404/407/413/414 fail immediately; 401/403/429 mark the
credential exhausted and move to the next one; when no credential remains the
operation fails terminally with `Scopus429Error`; other codes surface as
server errors.  Also returns the list of credentials actually tried. -/
def fetchAcross (resp : String → Nat) : List String → FetchOutcome × List String
  | [] => (.failure .scopus429, [])
  | k :: rest =>
    let code := resp k
    if 200 ≤ code ∧ code < 300 then (.success k, [k])
    else if code = 400 ∨ code = 404 ∨ code = 407 ∨ code = 413 ∨ code = 414 then
      (.failure (clientException code), [k])
    else if code = 401 ∨ code = 403 ∨ code = 429 then
      let r := fetchAcross resp rest
      (r.1, k :: r.2)
    else (.failure .scopusServerError, [k])

/-! ## Search ceiling (spec §4.6, `superclasses/search.py` not in tree) -/

/-- Modelled from the spec: the hard API ceiling on search results
(`SEARCH_MAX_ENTRIES` in the missing `utils/constants.py`; the spec and the
`AffiliationSearch` docstring give 5000). -/
def SEARCH_MAX_ENTRIES : Nat := 5000

/-- Modelled from the spec: the download phase of the search orchestrator
(`superclasses/search.py` is not in the checked tree).  Given the total
result count reported for the query and the page size, it fails with
`ScopusQueryError` before the first page request when the total exceeds the
ceiling; otherwise it issues one request per page until the total is
covered.  Returns the number of page requests issued and the error, if
any. -/
def searchDownload (total count : Nat) : Nat × Option ScopusException :=
  if SEARCH_MAX_ENTRIES < total then (0, some .scopusQueryError)
  else ((total + count - 1) / count, none)

/-! ## Cache freshness (spec §3, `superclasses/base.py` not in tree) -/

/-- The `refresh` argument: the Python `Union[bool, int]`. -/
inductive Refresh where
  | flag (b : Bool) : Refresh
  | days (n : Nat) : Refresh
deriving DecidableEq, Repr

/-- Modelled from the spec: freshness of a cache entry
(`superclasses/base.py` with `_check_file_age` is not in the checked tree).
`age` is `now - file_mtime` in days, `none` when the file is absent.  Fresh
iff `refresh == False` and the file exists, or `refresh` is an integer `N`
and the age is at most `N` days; `refresh == True` is never fresh. -/
def isFresh (r : Refresh) (age : Option Nat) : Bool :=
  match r, age with
  | .flag false, some _ => true
  | .flag false, none => false
  | .flag true, _ => false
  | .days n, some a => a ≤ n
  | .days _, none => false

/-- Modelled from the spec: one retrieval call of the orchestrator state
machine — a fresh entry is served from the cache with no request; a stale or
absent entry is re-fetched (one request) and the fetched document is
persisted, so the file afterwards exists with age 0.  Returns the number of
network requests issued and the cache age after the call. -/
def retrieveStep (r : Refresh) (age : Option Nat) : Nat × Option Nat :=
  if isFresh r age then (0, age) else (1, some 0)

/-! ## Helper lemmas -/

/-- Taking the last `n` elements is idempotent across appends: trimming the
left list to its last `n` elements first does not change the last `n`
elements of the concatenation. -/
lemma lastN_append_lastN (n : Nat) (a b : List Nat) :
    lastN n (lastN n a ++ b) = lastN n (a ++ b) := by
  rcases le_or_lt a.length n with h | h
  · simp [lastN, Nat.sub_eq_zero_of_le h]
  · simp only [lastN, List.length_append, List.length_drop,
      List.drop_append_eq_append_drop, List.drop_drop]
    congr 1 <;> congr 1 <;> omega

/-- Appending to a bounded deque is exactly "append, then keep the last `n`". -/
lemma dequeAppend_eq_lastN (n : Nat) (q : List Nat) (x : Nat) :
    dequeAppend n q x = lastN n (q ++ [x]) := rfl

/-- Folding `dequeAppend` over a list of timestamps, starting from a trimmed
accumulator, yields the last `n` of everything appended so far. -/
lemma foldl_dequeAppend (n : Nat) (ts : List Nat) :
    ∀ q : List Nat, List.foldl (dequeAppend n) (lastN n q) ts = lastN n (q ++ ts) := by
  induction ts with
  | nil => intro q; simp
  | cons x ts ih =>
    intro q
    have h1 : dequeAppend n (lastN n q) x = lastN n (q ++ [x]) := by
      rw [dequeAppend_eq_lastN, lastN_append_lastN]
    calc List.foldl (dequeAppend n) (lastN n q) (x :: ts)
        = List.foldl (dequeAppend n) (lastN n (q ++ [x])) ts := by
          simp [List.foldl_cons, h1]
      _ = lastN n ((q ++ [x]) ++ ts) := ih (q ++ [x])
      _ = lastN n (q ++ x :: ts) := by simp

/-! ## Theorems for the claims -/

/-- C1.  Cache freshness policy (modelled from the spec, `superclasses/base.py`
not in the checked tree): a fresh entry is never re-fetched and a stale or
absent entry is always re-fetched; in particular the second of two successive
`refresh=False` calls issues no request, a cache entry at most `N` days old
issues no request under `refresh=N`, one older than `N` days issues exactly
one, and `refresh=True` always issues one. -/
theorem c1_cache_freshness_policy :
    (∀ r a, isFresh r a = true → (retrieveStep r a).1 = 0) ∧
    (∀ r a, isFresh r a = false → (retrieveStep r a).1 = 1 ∧
      (retrieveStep r a).2 = some 0) ∧
    (∀ a, (retrieveStep (.flag false) (retrieveStep (.flag false) a).2).1 = 0) ∧
    (∀ n a, a ≤ n → (retrieveStep (.days n) (some a)).1 = 0) ∧
    (∀ n a, n < a → (retrieveStep (.days n) (some a)).1 = 1) ∧
    (∀ a, (retrieveStep (.flag true) a).1 = 1) := by
  refine ⟨?_, ?_, ?_, ?_, ?_, ?_⟩
  · intro r a h; simp [retrieveStep, h]
  · intro r a h; simp [retrieveStep, h]
  · intro a; cases a <;> simp [retrieveStep, isFresh]
  · intro n a h; simp [retrieveStep, isFresh, h]
  · intro n a h; simp [retrieveStep, isFresh, Nat.not_le.mpr h]
  · intro a; simp [retrieveStep, isFresh]

/-- Witness for C1 at concrete inputs: a two-day-old entry under `refresh=3`
issues no request, a five-day-old entry issues one. -/
theorem c1_cache_freshness_policy_witness :
    (retrieveStep (.days 3) (some 2)).1 = 0 ∧
    (retrieveStep (.days 3) (some 5)).1 = 1 :=
  ⟨c1_cache_freshness_policy.2.2.2.1 3 2 (by decide),
   c1_cache_freshness_policy.2.2.2.2.1 3 5 (by decide)⟩

/-- C2.  The per-API rate window is a bounded queue of the `N` most recent
timestamps: appending never grows it beyond `N`, appending at capacity evicts
the oldest (leftmost) element, any append sequence leaves exactly the last
`N` timestamps in the window, and the windows `_throttling_params` creates
start within their per-API bound. -/
theorem c2_rate_window_bounded :
    (∀ n q x, (dequeAppend n q x).length ≤ n) ∧
    (∀ n q x, 0 < n → q.length = n → dequeAppend n q x = q.tail ++ [x]) ∧
    (∀ n ts, List.foldl (dequeAppend n) [] ts = lastN n ts) ∧
    (∀ ratelimits, ∀ p ∈ throttlingParams ratelimits, p.2.2.length ≤ p.2.1) := by
  refine ⟨?_, ?_, ?_, ?_⟩
  · intro n q x; simp [dequeAppend]; omega
  · intro n q x hn hq
    have hq1 : 1 ≤ q.length := by omega
    have h0 : 1 - n = 0 := by omega
    simp [dequeAppend, hq, List.drop_append_eq_append_drop,
      Nat.sub_eq_zero_of_le hq1, List.drop_one, h0]
  · intro n ts
    have h0 : (([] : List Nat)) = lastN n [] := by simp [lastN]
    rw [h0, foldl_dequeAppend n ts []]
    simp
  · intro ratelimits p hp
    simp only [throttlingParams, List.mem_map] at hp
    obtain ⟨q, _, rfl⟩ := hp
    simp

/-- Witness for C2 at a concrete input: appending 9 to a full window `[5, 6]`
of capacity 2 evicts the oldest element 5. -/
theorem c2_rate_window_bounded_witness :
    dequeAppend 2 [5, 6] 9 = [6, 9] :=
  c2_rate_window_bounded.2.1 2 [5, 6] 9 (by decide) (by decide)

/-- C4.  Modelled from the spec (`superclasses/search.py` not in the checked
tree): a query whose reported total exceeds the `SEARCH_MAX_ENTRIES` ceiling
of 5000 fails with `ScopusQueryError` and issues zero page requests. -/
theorem c4_search_ceiling :
    ∀ total count, SEARCH_MAX_ENTRIES < total →
      searchDownload total count = (0, some .scopusQueryError) := by
  intro total count h
  simp [searchDownload, h]

/-- Witness for C4: a query reporting 5001 results issues zero requests and
fails with the query error. -/
theorem c4_search_ceiling_witness :
    searchDownload 5001 25 = (0, some .scopusQueryError) :=
  c4_search_ceiling 5001 25 (by decide)

/-- C8.  The configuration object written by `create_config` has a
`Requests` section with default values `Timeout = 20` and `Retries = 5`. -/
theorem c8_requests_defaults :
    ∀ defaultPaths keysStr insttokenStr,
      configGet (createConfig defaultPaths keysStr insttokenStr) "Requests" "Timeout"
          = some "20" ∧
      configGet (createConfig defaultPaths keysStr insttokenStr) "Requests" "Retries"
          = some "5" := by
  intro defaultPaths keysStr insttokenStr
  constructor <;> simp [createConfig, configGet]

/-- C10.  `get_config` raises `FileNotFoundError` exactly when `init` has
never set a config, and any normal return is the loaded (non-`None`)
config. -/
theorem c10_get_config_total :
    ∀ s : StartupState,
      (s.config = none → get_config s = .error .fileNotFoundError) ∧
      (∀ c, get_config s = .ok c → s.config = some c) := by
  intro s
  constructor
  · intro h; simp [get_config, h]
  · intro c h
    cases hc : s.config with
    | none => simp [get_config, hc] at h
    | some c2 => simp [get_config, hc] at h; simp [hc, h]

/-- Witness for C10: on the pristine module state (no `init` call),
`get_config` fails with `FileNotFoundError`. -/
theorem c10_get_config_total_witness :
    get_config ⟨none, none, none, []⟩ = .error .fileNotFoundError :=
  (c10_get_config_total ⟨none, none, none, []⟩).1 rfl

/-- The credential-rotation loop tries a sublist of the credential pool. -/
lemma fetchAcross_tried_sublist (resp : String → Nat) :
    ∀ creds, ((fetchAcross resp creds).2).Sublist creds := by
  intro creds
  induction creds with
  | nil => simp [fetchAcross]
  | cons k rest ih =>
    simp only [fetchAcross]
    by_cases h1 : 200 ≤ resp k ∧ resp k < 300
    · simp [h1]
    · by_cases h2 : resp k = 400 ∨ resp k = 404 ∨ resp k = 407 ∨ resp k = 413 ∨
          resp k = 414
      · simp [h1, h2]
      · by_cases h3 : resp k = 401 ∨ resp k = 403 ∨ resp k = 429
        · simpa [h1, h2, h3] using List.Sublist.cons₂ k ih
        · simp [h1, h2, h3]

/-- When every credential answers with a quota or auth status, the loop ends
in the terminal quota error. -/
lemma fetchAcross_all_exhausted (resp : String → Nat) :
    ∀ creds, (∀ c ∈ creds, resp c = 429 ∨ resp c = 401 ∨ resp c = 403) →
      (fetchAcross resp creds).1 = .failure .scopus429 := by
  intro creds
  induction creds with
  | nil => intro _; rfl
  | cons k rest ih =>
    intro h
    have hrest : ∀ c ∈ rest, resp c = 429 ∨ resp c = 401 ∨ resp c = 403 :=
      fun c hc => h c (List.mem_cons_of_mem k hc)
    have htail := ih hrest
    rcases h k (List.mem_cons_self k rest) with hk | hk | hk <;>
      simp [fetchAcross, hk, htail]

/-- C3.  Modelled from the spec (`utils/get_content.py` not in the checked
tree): when every credential in the pool signals quota exhaustion (429) or
auth rejection (401/403), the fetch fails with the terminal `Scopus429Error`;
the rotation loop tries a sublist of the pool — so never more credentials
than exist, each at most once when the pool has no duplicates. -/
theorem c3_credential_rotation_terminal :
    ∀ (resp : String → Nat) (creds : List String),
      ((∀ c ∈ creds, resp c = 429 ∨ resp c = 401 ∨ resp c = 403) →
        (fetchAcross resp creds).1 = .failure .scopus429) ∧
      ((fetchAcross resp creds).2).Sublist creds ∧
      ((fetchAcross resp creds).2).length ≤ creds.length ∧
      (creds.Nodup → ((fetchAcross resp creds).2).Nodup) := by
  intro resp creds
  refine ⟨fetchAcross_all_exhausted resp creds, fetchAcross_tried_sublist resp creds,
    (fetchAcross_tried_sublist resp creds).length_le, fun hnd =>
      hnd.sublist (fetchAcross_tried_sublist resp creds)⟩

/-- Witness for C3: with two credentials that both answer 429, the result is
the terminal quota error after trying both once. -/
theorem c3_credential_rotation_terminal_witness :
    (fetchAcross (fun _ => 429) ["A", "B"]).1 = .failure .scopus429 :=
  (c3_credential_rotation_terminal (fun _ => 429) ["A", "B"]).1 (by decide)

/-- C5.  `check_keys_tokens`: with tokens present, validation passes exactly
when there are at least as many keys as tokens; more tokens than keys is a
`ValueError`; and `init` with nonempty custom keys and tokens reports exactly
this validation outcome on the supplied lists, before any request exists in
the model. -/
theorem c5_tokens_not_exceed_keys :
    ∀ keys toks : List String, toks ≠ [] →
      ((checkKeysTokens keys toks = none) ↔ toks.length ≤ keys.length) ∧
      (keys.length < toks.length →
        ∃ m, checkKeysTokens keys toks = some (.valueError m)) ∧
      (∀ s cfg dp, checkSections cfg = none → keys ≠ [] →
        (initPy s (some cfg) dp (some keys) (some toks)).2 =
          checkKeysTokens keys toks) := by
  intro keys toks ht
  refine ⟨?_, ?_, ?_⟩
  · by_cases hk : keys = []
    · subst hk
      cases toks with
      | nil => simp at ht
      | cons t ts => simp [checkKeysTokens]
    · simp only [checkKeysTokens]
      split_ifs with h1 h2 h3
      · exact absurd h1.1 hk
      · exact absurd h2.2 hk
      · simp; omega
      · simp
        push_neg at h3
        have := h3 hk ht
        omega
  · intro hlen
    by_cases hk : keys = []
    · subst hk
      exact ⟨"InstTokens without corresponding API keys", by simp [checkKeysTokens, ht]⟩
    · exact ⟨"more InstTokens than API keys", by simp [checkKeysTokens, hk, ht, hlen]⟩
  · intro s cfg dp hsec hk
    cases keys with
    | nil => simp at hk
    | cons k ks =>
      cases toks with
      | nil => simp at ht
      | cons t ts =>
        simp [initPy, hsec, checkKeysTokensState, get_keys, get_insttokens]

/-- Witness for C5 at the test input of `test_error_more_tokens_than_keys`:
one key, two tokens. -/
theorem c5_tokens_not_exceed_keys_witness :
    ((checkKeysTokens ["1"] ["a", "b"] = none) ↔
      (["a", "b"] : List String).length ≤ (["1"] : List String).length) ∧
    (∃ m, checkKeysTokens ["1"] ["a", "b"] = some (.valueError m)) :=
  ⟨(c5_tokens_not_exceed_keys ["1"] ["a", "b"] (by decide)).1,
   (c5_tokens_not_exceed_keys ["1"] ["a", "b"] (by decide)).2.1 (by decide)⟩

/-- C6.  A retrieval constructor whose `view` is not in the permitted set for
the entity type fails with a `ValueError` naming the `view` parameter and
issues zero network requests, for both `AbstractRetrieval` and
`ArticleEntitlement`. -/
theorem c6_view_validated_before_network :
    ∀ (view : String) (idType identifier : Option String) (netCalls : Nat),
      (view ∉ viewsAbstractRetrieval →
        abstractRetrievalInit view idType identifier netCalls =
          (0, some (.valueError "view"))) ∧
      (view ∉ viewsArticleEntitlement →
        articleEntitlementInit view idType netCalls =
          (0, some (.valueError "view"))) := by
  intro view idType identifier netCalls
  constructor
  · intro h; simp [abstractRetrievalInit, check_parameter_value, h]
  · intro h; simp [articleEntitlementInit, check_parameter_value, h]

/-- Witness for C6: the view `BOGUS` is rejected by both constructors with a
`ValueError` naming `view` and zero requests. -/
theorem c6_view_validated_before_network_witness :
    abstractRetrievalInit "BOGUS" none (some "10.1000/xyz") 1 =
      (0, some (.valueError "view")) ∧
    articleEntitlementInit "BOGUS" none 1 = (0, some (.valueError "view")) :=
  ⟨(c6_view_validated_before_network "BOGUS" none (some "10.1000/xyz") 1).1 (by decide),
   (c6_view_validated_before_network "BOGUS" none (some "10.1000/xyz") 1).2 (by decide)⟩

/-- C7 counterexample: `init` does not replace the per-API rate windows.  A
window holding the timestamp 42 before a successful re-`init` still holds it
afterwards, and that window state differs from the freshly-created
`_throttling_params` state the claim requires. -/
theorem c7_counterexample_windows_not_replaced :
    ((initPy ⟨none, none, none, [("AbstractRetrieval", 9, [42])]⟩
        (some (createConfig [("AbstractRetrieval", "p")] "k1" ""))
        [("AbstractRetrieval", "p")]
        (some ["5", "6", "7"]) (some ["e", "f"])).1.throttling
      = [("AbstractRetrieval", 9, [42])]) ∧
    ([("AbstractRetrieval", 9, [42])] : List (String × Nat × List Nat)) ≠
      throttlingParams [("AbstractRetrieval", 9)] ∧
    (initPy ⟨none, none, none, [("AbstractRetrieval", 9, [42])]⟩
        (some (createConfig [("AbstractRetrieval", "p")] "k1" ""))
        [("AbstractRetrieval", "p")]
        (some ["5", "6", "7"]) (some ["e", "f"])).2 = none := by
  refine ⟨rfl, by decide, rfl⟩

/-- C7 as amended.  Re-initialization replaces the credential pool wholesale:
after `init` with nonempty custom keys and tokens, `get_keys` and
`get_insttokens` return exactly the supplied lists, with nothing carried over.
The per-API rate windows, however, are module-level state created once at
import: `init` leaves them untouched (neither replaced nor merged). -/
theorem c7_reinit_replaces_credentials_keeps_windows :
    (∀ s pathConfig dp keys insttokens,
      (initPy s pathConfig dp keys insttokens).1.throttling = s.throttling) ∧
    (∀ s cfg dp keys toks, checkSections cfg = none → keys ≠ [] → toks ≠ [] →
      get_keys (initPy s (some cfg) dp (some keys) (some toks)).1 = .ok keys ∧
      get_insttokens (initPy s (some cfg) dp (some keys) (some toks)).1 = .ok toks) := by
  constructor
  · intro s pathConfig dp keys insttokens
    cases pathConfig <;>
      · dsimp only [initPy]
        cases h : checkSections _ <;> simp [h]
  · intro s cfg dp keys toks hsec hk ht
    cases keys with
    | nil => simp at hk
    | cons k ks =>
      cases toks with
      | nil => simp at ht
      | cons t ts =>
        constructor <;> simp [initPy, hsec, get_keys, get_insttokens]

/-- Witness for C7 (amended): a concrete re-`init` with keys `5, 6, 7` and
tokens `e, f` over a dirty prior state yields exactly those lists and leaves
the windows of the prior state unchanged. -/
theorem c7_reinit_replaces_credentials_keeps_windows_witness :
    get_keys (initPy ⟨none, some ["1", "2"], some ["a"], [("X", 2, [7])]⟩
        (some (createConfig [("X", "p")] "k1" ""))
        [("X", "p")] (some ["5", "6", "7"]) (some ["e", "f"])).1
      = .ok ["5", "6", "7"] ∧
    get_insttokens (initPy ⟨none, some ["1", "2"], some ["a"], [("X", 2, [7])]⟩
        (some (createConfig [("X", "p")] "k1" ""))
        [("X", "p")] (some ["5", "6", "7"]) (some ["e", "f"])).1
      = .ok ["e", "f"] :=
  (c7_reinit_replaces_credentials_keeps_windows.2
    ⟨none, some ["1", "2"], some ["a"], [("X", 2, [7])]⟩
    (createConfig [("X", "p")] "k1" "") [("X", "p")]
    ["5", "6", "7"] ["e", "f"] rfl (by decide) (by decide))

/-- If the path resolves fully through dicts, the reduce reaches the resolved
value without raising. -/
lemma reduceGet_of_resolvePath (d : Json) :
    ∀ (p : List String) (c v : Json), resolvePath c p = some v →
      reduceGet d c p = .ok v := by
  intro p
  induction p with
  | nil => intro c v h; simp [resolvePath] at h; simp [reduceGet, h]
  | cons k rest ih =>
    intro c v h
    cases c with
    | obj fields =>
      cases hg : jsonGet fields k with
      | none => simp [resolvePath, hg] at h
      | some w =>
        simp only [resolvePath, hg] at h
        simp [reduceGet, pyGet, hg, ih w v h]
    | null => simp [resolvePath] at h
    | bool v2 => simp [resolvePath] at h
    | num v2 => simp [resolvePath] at h
    | str v2 => simp [resolvePath] at h
    | arr items => simp [resolvePath] at h

/-- With a non-dict default, a path that does not fully resolve makes
`chained_get` return the default. -/
lemma chained_get_default_of_not_resolve (d : Json) (hd : d.isObj = false) :
    ∀ (p : List String) (c : Json), resolvePath c p = none →
      chained_get c p d = d := by
  intro p
  induction p with
  | nil => intro c h; simp [resolvePath] at h
  | cons k rest ih =>
    intro c h
    cases c with
    | obj fields =>
      cases hg : jsonGet fields k with
      | some w =>
        simp only [resolvePath, hg] at h
        have := ih w h
        simpa [chained_get, reduceGet, pyGet, hg] using this
      | none =>
        cases rest with
        | nil => simp [chained_get, reduceGet, pyGet, hg]
        | cons k2 rest2 =>
          cases d <;> simp_all [chained_get, reduceGet, pyGet, Json.isObj]
    | null => simp [chained_get, reduceGet, pyGet]
    | bool v => simp [chained_get, reduceGet, pyGet]
    | num v => simp [chained_get, reduceGet, pyGet]
    | str v => simp [chained_get, reduceGet, pyGet]
    | arr items => simp [chained_get, reduceGet, pyGet]

/-- C9 counterexample: with an absent key and a dict-valued default, the
reduce continues the lookup inside the default, so `chained_get` does not
return the default itself — here it returns `42` instead of the default
object. -/
theorem c9_counterexample_dict_default :
    chained_get (.obj []) ["a", "b"] (.obj [("b", .num 42)]) = .num 42 ∧
    Json.num 42 ≠ Json.obj [("b", .num 42)] :=
  ⟨rfl, fun h => Json.noConfusion h⟩

/-- C9 as amended.  `chained_get` is total by construction; it returns the
nested value whenever the whole path resolves through dicts; and whenever the
default is not itself a dict, it returns the default as soon as a key is
absent or an intermediate value does not support key lookup. -/
theorem c9_chained_get_total :
    ∀ (c : Json) (p : List String) (d : Json),
      (∀ v, resolvePath c p = some v → chained_get c p d = v) ∧
      (d.isObj = false → resolvePath c p = none → chained_get c p d = d) := by
  intro c p d
  constructor
  · intro v h
    simp [chained_get, reduceGet_of_resolvePath d p c v h]
  · intro hd h
    exact chained_get_default_of_not_resolve d hd p c h

/-- Witness for C9 (amended) at concrete inputs: a resolving path returns the
nested value, and a missing key with the non-dict default `null` returns
`null`. -/
theorem c9_chained_get_total_witness :
    chained_get (.obj [("a", .num 7)]) ["a"] .null = .num 7 ∧
    chained_get (.obj []) ["a"] .null = .null :=
  ⟨(c9_chained_get_total (.obj [("a", .num 7)]) ["a"] .null).1 (.num 7) rfl,
   (c9_chained_get_total (.obj []) ["a"] .null).2 rfl rfl⟩
